import Mathlib

set_option linter.unusedVariables false

namespace Constructo

/-! Shallow embedding of the Constructo agent (directory src/ai of the
repository).  Python strings are Lean strings; Python dict-based JSON
envelopes become structures of optional fields (none = key absent).  The two
keys whose JSON-null value the code distinguishes from absence
(next_step, reasoning_context) are doubly optional: none = key absent,
some none = key present holding null.  Clock readings, the model oracle,
the command dispatcher and the confirmation prompt are environment
parameters; everything else is translated from the source. -/

/-- Python truthiness of an optional string (None and the empty string are falsy). -/
def strTruthy : Option String → Bool
  | none => false
  | some s => s != ""

/-- Python `a or b or ""` over two optional strings, with Python truthiness. -/
def pyOrStr (a b : Option String) : String :=
  if strTruthy a then a.getD "" else if strTruthy b then b.getD "" else ""

/-- Python str.strip over a character list: drop whitespace from both ends. -/
def pyStripChars (l : List Char) : List Char :=
  ((l.dropWhile Char.isWhitespace).reverse.dropWhile Char.isWhitespace).reverse

/-- Python str.strip. -/
def pyStrip (s : String) : String :=
  String.mk (pyStripChars s.toList)

/-- Python str.lower, character by character (the risk and threshold labels
it is applied to are ASCII). -/
def pyLower (s : String) : String :=
  String.mk (s.toList.map Char.toLower)

/-- Index of the last occurrence of a character (Python str.rfind). -/
def rfindIdx (l : List Char) (c : Char) : Option Nat :=
  match l.reverse.findIdx? (fun x => x == c) with
  | none => none
  | some i => some (l.length - 1 - i)

/-- Source: _extract_json (src/ai/agent.py, lines 16-28).  Strip the text,
locate the first opening brace and the last closing brace and slice between
them; when either is missing the Python code raises
ValueError("No valid JSON found in response"), modelled as the error case. -/
def _extract_json (text0 : String) : Except String String :=
  let text := pyStrip text0
  let cs := text.toList
  match cs.findIdx? (fun x => x == '\x7b'), rfindIdx cs '\x7d' with
  | some s, some e => .ok (String.mk ((cs.take (e + 1)).drop s))
  | _, _ => .error "No valid JSON found in response"

/-- Does the second list start with the first one? -/
def startsWithChars : List Char → List Char → Bool
  | [], _ => true
  | _ :: _, [] => false
  | p :: ps, c :: cs => p == c && startsWithChars ps cs

/-- First index at which `pat` occurs as a contiguous sublist. -/
def findSubIdx (pat : List Char) : List Char → Option Nat
  | [] => if startsWithChars pat [] then some 0 else none
  | c :: cs =>
    if startsWithChars pat (c :: cs) then some 0
    else match findSubIdx pat cs with
         | some i => some (i + 1)
         | none => none

/-- The 7-character opening fence marker of the regex in agent.py line 343. -/
def fenceOpen : List Char := ['\x60', '\x60', '\x60', 'j', 's', 'o', 'n']

/-- The 3-character closing fence marker. -/
def fenceClose : List Char := ['\x60', '\x60', '\x60']

/-- Fuelled scanner for re.sub(r"(fenceOpen)\s*([\s\S]*?)(fenceClose)", group)
as used throughout agent.py and deep_reasoning.py: each leftmost match of an
opening fence, a greedy whitespace run and a lazily matched body up to the
next closing fence is replaced by the body; scanning resumes after the
replaced region.  The fuel (one unit per character) always suffices. -/
def subFences : Nat → List Char → List Char
  | 0, s => s
  | _ + 1, [] => []
  | n + 1, c :: cs =>
    if startsWithChars fenceOpen (c :: cs) then
      let afterWs := ((c :: cs).drop 7).dropWhile Char.isWhitespace
      match findSubIdx fenceClose afterWs with
      | some j => afterWs.take j ++ subFences n (afterWs.drop (j + 3))
      | none => c :: subFences n cs
    else c :: subFences n cs

/-- The cleaning step clean_text = re.sub(fence pattern, body, text). -/
def stripCodeFences (t : String) : String :=
  String.mk (subFences (t.toList.length + 1) t.toList)

/-- reasoning_context sub-object of a decision envelope (spec section 3). -/
structure ReasoningContext where
  situation : Option String := none
  complexity : Option String := none
  impact_scope : Option String := none
deriving DecidableEq

/-- next_step sub-object of a decision envelope.  The deep-reasoning fallback
envelopes additionally carry an action key (deep_reasoning.py lines 216-220). -/
structure NextStep where
  command : Option String := none
  risk : Option String := none
  requires_confirmation : Option Bool := none
  action : Option String := none
deriving DecidableEq

/-- A parsed decision envelope: the JSON dict the model returns.  Fields are
optional (none = key absent); next_step and reasoning_context distinguish a
present-but-null value (some none) from an absent key (none) because the code
treats them differently (dict.get returns None for a present null key, and
None.get then raises). -/
structure Envelope where
  type : Option String := none
  message : Option String := none
  analysis : Option String := none
  next_step : Option (Option NextStep) := none
  requires_deep_reasoning : Option Bool := none
  reasoning_context : Option (Option ReasoningContext) := none
  «continue» : Option Bool := none
  confidence_level : Option ℚ := none
deriving DecidableEq

/-- str(e) for the AttributeError raised by None.get(...). -/
def attrErrNoneGet : String := "\x27NoneType\x27 object has no attribute \x27get\x27"

/-- agent-section configuration consumed by _needs_confirmation
(config defaults from agent.py lines 94-102). -/
structure AgentConfig where
  require_confirmation : Bool := true
  risk_threshold : String := "medium"
deriving DecidableEq

/-- activation_triggers sub-configuration of Deep Reasoning
(defaults from deep_reasoning.py lines 44-52). -/
structure TriggersConfig where
  consecutive_failures : Nat := 2
  high_risk_commands : Bool := true
deriving DecidableEq

/-- deep_reasoning section of the configuration. -/
structure DRConfig where
  debug_mode : Bool := false
  activation_triggers : TriggersConfig := {}
deriving DecidableEq

/-- Source: self.risk_levels (agent.py lines 64-69), as a partial lookup:
none models a key missing from the dict. -/
def risk_levels (s : String) : Option Nat :=
  if s = "none" then some 0
  else if s = "low" then some 1
  else if s = "medium" then some 2
  else if s = "high" then some 3
  else none

/-- Source: AIAgent._needs_confirmation (agent.py lines 92-104). -/
def _needs_confirmation (cfg : AgentConfig) (risk_level : String) : Bool :=
  if !cfg.require_confirmation then false
  else
    let threshold := pyLower cfg.risk_threshold
    let action_risk := (risk_levels (pyLower risk_level)).getD 0
    let threshold_risk := (risk_levels threshold).getD 2
    action_risk > threshold_risk

/-- Source: DeepReasoning.should_activate (deep_reasoning.py lines 23-64).
The error case models the AttributeError raised by
situation_data.get("next_step", dict()).get(...) when the key holds JSON
null (dict.get returns the stored None, and None.get raises); the same
happens for reasoning_context. -/
def should_activate (cfg : DRConfig) (consecutive_failures : Nat)
    (situation_data : Envelope) : Except String Bool :=
  if cfg.debug_mode then .ok true
  else if situation_data.requires_deep_reasoning.getD false then .ok true
  else if consecutive_failures ≥ cfg.activation_triggers.consecutive_failures then .ok true
  else
    let high_risk : Except String Bool :=
      if cfg.activation_triggers.high_risk_commands then
        match situation_data.next_step with
        | some none => .error attrErrNoneGet
        | none => .ok false
        | some (some ns) => .ok (ns.risk.getD "low" == "high")
      else .ok false
    match high_risk with
    | .error e => .error e
    | .ok true => .ok true
    | .ok false =>
      match situation_data.reasoning_context with
      | some none => .error attrErrNoneGet
      | none => .ok false
      | some (some rc) =>
        .ok (rc.complexity.getD "low" == "high" || rc.impact_scope.getD "low" == "high")

/-- Source: DeepReasoning.record_result (deep_reasoning.py lines 66-76),
as the new value of the consecutive-failure counter. -/
def record_result (consecutive_failures : Nat) (success : Bool) : Nat :=
  if success then 0 else consecutive_failures + 1

/-- A context entry (src/ai/context_manager.py): the dict appended by the
control loop after each dispatched action. -/
structure CtxEntry where
  timestamp : String
  type : String
  content : String
deriving DecidableEq

/-- Source: ContextManager (src/ai/context_manager.py lines 3-6). -/
structure ContextManager where
  context_history : List CtxEntry := []
  max_context_length : Nat := 10
deriving DecidableEq

/-- Source: ContextManager.add_to_context (context_manager.py lines 8-11):
append, then pop the front once the length exceeds the cap. -/
def add_to_context (m : ContextManager) (interaction : CtxEntry) : ContextManager :=
  let h := m.context_history ++ [interaction]
  if h.length > m.max_context_length then
    { m with context_history := h.drop 1 }
  else
    { m with context_history := h }

/-- The line rendered for one entry by get_current_context. -/
def ctxLine (item : CtxEntry) : String :=
  "[" ++ item.timestamp ++ "] " ++ item.type ++ ": " ++ item.content

/-- Source: ContextManager.get_current_context (context_manager.py lines
13-17): newline-joined rendering of the history, oldest first.  A pure
function of the state by construction. -/
def get_current_context (m : ContextManager) : String :=
  String.intercalate "\n" (m.context_history.map ctxLine)

/-- Source: RateLimiter state (src/ai/rate_limiter.py lines 7-13).  Times are
rationals measured in seconds; request_times is the deque, oldest first
(deque(maxlen = requests_per_minute)). -/
structure RateLimiterState where
  requests_per_minute : Nat := 10
  delay_between_requests : ℚ := 5
  request_times : List ℚ := []
  last_request_time : Option ℚ := none
deriving DecidableEq

/-- The pruning loop of wait_if_needed_async (rate_limiter.py lines 34-35):
pop entries from the front while they are more than 60 seconds old. -/
def pruneOld (times : List ℚ) (t : ℚ) : List ℚ :=
  times.dropWhile (fun ts => decide (t - ts > 60))

/-- The minimum-delay loop of wait_if_needed_async (rate_limiter.py lines
20-29) under the idealized clock in which asyncio.sleep wakes exactly at its
target time: the time at which the loop exits, given the call time t0. -/
def delayTarget (s : RateLimiterState) (t0 : ℚ) : ℚ :=
  match s.last_request_time with
  | none => t0
  | some l =>
    if t0 - l < s.delay_between_requests then l + s.delay_between_requests else t0

/-- The per-minute window loop of wait_if_needed_async (rate_limiter.py
lines 38-45) under the idealized clock: after pruning, if the recorded
window is still at capacity, sleep until the oldest entry turns 60 seconds
old (the re-check after waking then finds a non-positive wait and breaks);
the time at which the request is finally granted and recorded. -/
def grantTime (s : RateLimiterState) (t0 : ℚ) : ℚ :=
  let t1 := delayTarget s t0
  let pruned := pruneOld s.request_times t1
  if pruned.length ≥ s.requests_per_minute then
    match pruned with
    | [] => t1
    | oldest :: _ => if oldest + 60 - t1 > 0 then oldest + 60 else t1
  else t1

/-- Source: RateLimiter.wait_if_needed_async (rate_limiter.py lines 15-49),
under the idealized clock: the minimum-delay loop (delayTarget), the pruning
of entries older than 60 seconds (pruneOld), the window loop (grantTime) and
the final append (lines 47-49); appending to the full deque(maxlen =
requests_per_minute) drops the oldest entry, modelled by the final drop.
Returns the grant time and the updated limiter state. -/
def wait_if_needed_async (s : RateLimiterState) (t0 : ℚ) : ℚ × RateLimiterState :=
  let t2 := grantTime s t0
  let appended := pruneOld s.request_times (delayTarget s t0) ++ [t2]
  let kept := appended.drop (appended.length - s.requests_per_minute)
  (t2, { s with request_times := kept, last_request_time := some t2 })

/-- The mutable sampling configuration of the model client
(genai.GenerationConfig, agent.py lines 35-40). -/
structure GenerationConfig where
  temperature : ℚ := 0.7
  top_p : ℚ := 0.9
  top_k : ℚ := 40
  max_output_tokens : Nat := 4096
deriving DecidableEq

/-- The original_config dict saved by AIAgent._temp_configure_model
(agent.py lines 375-379): exactly the three overridable parameters. -/
structure OriginalConfig where
  temperature : ℚ
  top_p : ℚ
  top_k : ℚ
deriving DecidableEq

/-- A perspective's sampling-override dict from the configuration file. -/
structure PerspectiveCfg where
  temperature : Option ℚ := none
  top_p : Option ℚ := none
  top_k : Option ℚ := none
deriving DecidableEq

/-- Source: AIAgent._temp_configure_model (agent.py lines 371-383): save the
three current parameters, overwrite each with the override value when
present, return the saved dict (paired here with the new client state). -/
def agent_temp_configure_model (gc : GenerationConfig) (config : PerspectiveCfg) :
    OriginalConfig × GenerationConfig :=
  (⟨gc.temperature, gc.top_p, gc.top_k⟩,
   { gc with
     temperature := config.temperature.getD gc.temperature,
     top_p := config.top_p.getD gc.top_p,
     top_k := config.top_k.getD gc.top_k })

/-- Source: AIAgent._restore_model_config (agent.py lines 385-391). -/
def _restore_model_config (gc : GenerationConfig) (orig : OriginalConfig) :
    GenerationConfig :=
  { gc with temperature := orig.temperature, top_p := orig.top_p, top_k := orig.top_k }

/-- Source: DeepReasoning._temp_configure_model (deep_reasoning.py lines
236-246): delegate to the agent's method with defaults 0.5 / 0.7 / 40 filled
in for missing override keys. -/
def dr_temp_configure_model (gc : GenerationConfig) (config : PerspectiveCfg) :
    OriginalConfig × GenerationConfig :=
  agent_temp_configure_model gc
    ⟨some (config.temperature.getD 0.5), some (config.top_p.getD 0.7),
     some (config.top_k.getD 40)⟩

/-- Source: DeepReasoning._evaluate_confidence (deep_reasoning.py lines
256-270): response.get("confidence_level", 0.7). -/
def _evaluate_confidence (response : Envelope) : ℚ :=
  response.confidence_level.getD 0.7

/-- A perspective result dict (deep_reasoning.py lines 156-160). -/
structure PerspectiveResult where
  perspective : String
  analysis : Envelope
  confidence : ℚ
deriving DecidableEq

/-- Outcome of one perspective's model call and parse, as an oracle: the
model call raised (after retries), the strict JSON parse of its text raised,
or it produced a parsed dict. -/
inductive PerspectiveOutcome where
  | callRaises
  | parseFails
  | succeeds (parsed_json : Envelope)
deriving DecidableEq

/-- One iteration of the perspective loop of deep_analyze (deep_reasoning.py
lines 90-193): acquire the sampling override, run the call/parse (abstracted
by the outcome oracle; a failure is logged and yields no result), and in the
finally block restore the saved configuration. -/
def perspective_step (gc : GenerationConfig) (perspective_name : String)
    (perspective_cfg : PerspectiveCfg) (outcome : PerspectiveOutcome) :
    GenerationConfig × Option PerspectiveResult :=
  let p := dr_temp_configure_model gc perspective_cfg
  let res : Option PerspectiveResult :=
    match outcome with
    | .callRaises => none
    | .parseFails => none
    | .succeeds pj => some ⟨perspective_name, pj, _evaluate_confidence pj⟩
  (_restore_model_config p.2 p.1, res)

/-- The whole perspective loop, collecting successful results in order. -/
def deep_analyze_loop (outcomes : Nat → PerspectiveOutcome) :
    List (String × PerspectiveCfg) → Nat → GenerationConfig →
    List PerspectiveResult → GenerationConfig × List PerspectiveResult
  | [], _, gc, acc => (gc, acc)
  | (name, pcfg) :: rest, i, gc, acc =>
    let r := perspective_step gc name pcfg (outcomes i)
    deep_analyze_loop outcomes rest (i + 1) r.1 (acc ++ r.2.toList)

/-- An envelope with every key absent. -/
def emptyEnvelope : Envelope := {}

/-- The next_step dict shared by the deep-reasoning fallback envelopes
(deep_reasoning.py lines 216-220, 226-230, 310-315, 322-327). -/
def fallback_next_step : Option (Option NextStep) :=
  some (some { action := some "continue", risk := some "medium",
               requires_confirmation := some true })

/-- Outcome of the synthesis model call, as an oracle. -/
inductive SynthOutcome where
  | raises (msg : String)
  | returnsText (t : String)
deriving DecidableEq

/-- Source: DeepReasoning._synthesize_perspectives (deep_reasoning.py lines
286-328): send the synthesis prompt; on an exception return the
"Synthesis error" envelope; otherwise strip fences and whitespace, slice
from the first brace when the text does not start with one, and strictly
decode; on decode failure return the parsing-errors fallback that carries
the cleaned text as analysis.  decode abstracts json.loads. -/
def _synthesize_perspectives (decode : String → Except String Envelope)
    (outcome : SynthOutcome) : Envelope :=
  match outcome with
  | .raises msg =>
    { emptyEnvelope with
      type := some "response",
      message := some ("Synthesis error: " ++ msg),
      next_step := fallback_next_step }
  | .returnsText response =>
    let clean0 := pyStrip (stripCodeFences response)
    let cs := clean0.toList
    let clean_text :=
      if startsWithChars ['\x7b'] cs then clean0
      else match cs.findIdx? (fun x => x == '\x7b') with
           | some s => String.mk (cs.drop s)
           | none => clean0
    match decode clean_text with
    | .ok e => e
    | .error _ =>
      { emptyEnvelope with
        type := some "analysis",
        message := some "Synthesis completed with parsing errors",
        analysis := some clean_text,
        next_step := fallback_next_step }

/-- The degraded envelope returned when no perspective succeeded
(deep_reasoning.py lines 223-231). -/
def deep_fallback_envelope : Envelope :=
  { emptyEnvelope with
    type := some "response",
    message := some "Deep analysis encountered errors but will continue with standard processing",
    next_step := fallback_next_step }

/-- Source: DeepReasoning.deep_analyze (deep_reasoning.py lines 78-234):
run every configured perspective (failures are caught, logged and skipped,
the sampling override being restored in the finally block each time); if at
least one result was collected, synthesize (a total step: every path of
_synthesize_perspectives returns, so the surrounding except at lines 201-221
is unreachable and not modelled); otherwise return the degraded envelope.
The result pairs the final sampling configuration with the returned dict. -/
def deep_analyze (decode : String → Except String Envelope)
    (gc : GenerationConfig) (perspectives : List (String × PerspectiveCfg))
    (outcomes : Nat → PerspectiveOutcome) (synth : SynthOutcome) :
    GenerationConfig × Envelope :=
  let r := deep_analyze_loop outcomes perspectives 0 gc []
  if r.2.isEmpty then (r.1, deep_fallback_envelope)
  else (r.1, _synthesize_perspectives decode synth)

/-- Error raised by the parse pipeline of a model response: either json.loads
raised JSONDecodeError (carrying the cleaned text used by the handlers and
str(e)), or _extract_json raised ValueError. -/
inductive ParseErr where
  | decodeError (clean_text : String) (msg : String)
  | extractError (msg : String)
deriving DecidableEq

/-- The parse pipeline applied to each raw model text throughout agent.py
(lines 221-222, 288-289, 324-325, 343-345): strip code fences, slice with
_extract_json, strictly decode.  decode abstracts json.loads; its error
carries str(JSONDecodeError). -/
def parse_model_text (decode : String → Except String Envelope) (t : String) :
    Except ParseErr Envelope :=
  let clean_text := stripCodeFences t
  match _extract_json clean_text with
  | .error msg => .error (.extractError msg)
  | .ok json_str =>
    match decode json_str with
    | .error msg => .error (.decodeError clean_text msg)
    | .ok e => .ok e

/-- str(e) of a parse-pipeline error. -/
def parseErrStr : ParseErr → String
  | .decodeError _ msg => msg
  | .extractError msg => msg

/-- An oracle value for one call to DeepReasoning.deep_analyze as seen from
execute_step: the call raised, or it returned a dict. -/
inductive DeepOutcome where
  | raises
  | returns (deep_analysis : Envelope)
deriving DecidableEq

/-- Externally observable actions of one operator turn, in order. -/
inductive Event where
  | model_query
  | deep_reasoning_invoked
  | confirmation_requested
  | command_executed (cmd : String)
deriving DecidableEq

/-- The agent state mutated during a turn: the _last_action duplicate guard
(agent.py lines 184-187), the deep-reasoning consecutive-failure counter and
the bounded context log. -/
structure AgentState where
  _last_action : Option Envelope := none
  consecutive_failures : Nat := 0
  context : ContextManager := {}
deriving DecidableEq

/-- self.deep_reasoning.record_result(success) applied to the state. -/
def recordResult (st : AgentState) (success : Bool) : AgentState :=
  { st with consecutive_failures := record_result st.consecutive_failures success }

/-- self.context_manager.add_to_context(entry) applied to the state. -/
def addContext (st : AgentState) (e : CtxEntry) : AgentState :=
  { st with context := add_to_context st.context e }

/-- The environment of a turn: configuration plus the external collaborators
(json.loads, the command dispatcher, the confirmation prompt, the clock). -/
structure AgentEnv where
  agent_cfg : AgentConfig := {}
  dr_cfg : DRConfig := {}
  decode : String → Except String Envelope
  run_command : String → String × String × Int
  confirm : Bool := true
  now : String := "t"

/-- _send_message_with_retry (agent.py lines 106-142) over a script of
pending model answers: consume the next text; with no text left the retry
wrapper re-raises its last error, and an empty text raises
ValueError("Empty response from API"), so a returned response is always
truthy. -/
def send_result (script : List String) : Except String (String × List String) :=
  match script with
  | [] => .error "Maximum retry attempts reached"
  | t :: rest => if t = "" then .error "Empty response from API" else .ok (t, rest)

/-- The value of one execute_step call: the returned (result, continue) pair
plus the threaded state, the unconsumed oracle scripts and the event trace. -/
structure StepRun where
  result : String
  cont : Bool
  st : AgentState
  script : List String
  deeps : List DeepOutcome
  trace : List Event
deriving DecidableEq

/-- Source: the inner coroutine execute_step (agent.py lines 181-339),
with fuel for the recursion (every theorem supplies enough; the fuel-0
sentinel is never reached in the modelled runs).  The body mirrors the
Python line by line:
  - duplicate-action guard (184-187);
  - activation check (190-193), whose AttributeError on a JSON-null
    next_step / reasoning_context propagates to the handler at 336-339
    (record a failure, return str(e));
  - deep-reasoning branch (195-231): a JSON-null reasoning_context raises
    while building the deep_analyze arguments; the deep_analyze outcome is
    consumed from its oracle list; an "error"-typed result, a raised call or
    an unparsable follow-up response all re-enter execute_step with the same
    envelope (which the duplicate guard then stops); a parsed follow-up
    re-enters with the new envelope;
  - plain response (233-246): no next_step key or a null one, or a falsy
    command, returns (message or analysis or "", continue);
  - confirmation gate (248-257) and dispatch (259-260);
  - failure path (264-295) and success path (297-334) with their
    continuation re-entries; record_result(True) is only reached at 333. -/
def execute_step (env : AgentEnv) :
    Nat → AgentState → List String → List DeepOutcome → Envelope → StepRun
  | 0, st, script, deeps, _ =>
    ⟨"recursion fuel exhausted", false, st, script, deeps, []⟩
  | n + 1, st, script, deeps, parsed_response =>
    if st._last_action = some parsed_response then
      ⟨"Action already completed.", false, st, script, deeps, []⟩
    else
      let st := { st with _last_action := some parsed_response }
      let activation : Except String Bool :=
        if parsed_response.requires_deep_reasoning.getD false then .ok true
        else should_activate env.dr_cfg st.consecutive_failures parsed_response
      match activation with
      | .error e =>
        ⟨e, false, recordResult st false, script, deeps, []⟩
      | .ok true =>
        match parsed_response.reasoning_context with
        | some none =>
          execute_step env n st script deeps parsed_response
        | _ =>
          match deeps with
          | [] =>
            let r := execute_step env n st script [] parsed_response
            { r with trace := Event.deep_reasoning_invoked :: r.trace }
          | .raises :: deeps1 =>
            let r := execute_step env n st script deeps1 parsed_response
            { r with trace := Event.deep_reasoning_invoked :: r.trace }
          | .returns deep_analysis :: deeps1 =>
            if deep_analysis.type.getD "" = "error" then
              let r := execute_step env n st script deeps1 parsed_response
              { r with trace := Event.deep_reasoning_invoked :: r.trace }
            else
              match send_result script with
              | .error _ =>
                let r := execute_step env n st script deeps1 parsed_response
                { r with trace := Event.deep_reasoning_invoked :: Event.model_query :: r.trace }
              | .ok (response, script1) =>
                match parse_model_text env.decode response with
                | .ok parsed =>
                  let r := execute_step env n st script1 deeps1 parsed
                  { r with trace := Event.deep_reasoning_invoked :: Event.model_query :: r.trace }
                | .error _ =>
                  let r := execute_step env n st script1 deeps1 parsed_response
                  { r with trace := Event.deep_reasoning_invoked :: Event.model_query :: r.trace }
      | .ok false =>
        let response_text := pyOrStr parsed_response.message parsed_response.analysis
        let should_continue := parsed_response.«continue».getD false
        match parsed_response.next_step with
        | none => ⟨response_text, should_continue, st, script, deeps, []⟩
        | some none => ⟨response_text, should_continue, st, script, deeps, []⟩
        | some (some action) =>
          if !strTruthy action.command then
            ⟨response_text, should_continue, st, script, deeps, []⟩
          else
            let cmd := action.command.getD ""
            let risk := pyLower (action.risk.getD "medium")
            let gate := action.requires_confirmation.getD false
                          && _needs_confirmation env.agent_cfg risk
            let gateEvents := if gate then [Event.confirmation_requested] else []
            if gate && !env.confirm then
              ⟨"Operation canceled by user.", false, st, script, deeps, gateEvents⟩
            else
              let out := env.run_command cmd
              let stdout := out.1
              let stderr := out.2.1
              let returncode := out.2.2
              let execEvents := gateEvents ++ [Event.command_executed cmd]
              if returncode ≠ 0 then
                let error_msg := "Command returned code " ++ toString returncode ++ ": "
                  ++ (if stderr ≠ "" then pyStrip stderr else "No error message")
                let st := addContext st
                  ⟨env.now, "error", if stderr ≠ "" then stderr else error_msg⟩
                let st := recordResult st false
                if should_continue then
                  match send_result script with
                  | .error e =>
                    ⟨e, false, recordResult st false, script, deeps,
                      execEvents ++ [Event.model_query]⟩
                  | .ok (t, script1) =>
                    match parse_model_text env.decode t with
                    | .ok next_parsed =>
                      let r := execute_step env n st script1 deeps next_parsed
                      { r with trace := execEvents ++ Event.model_query :: r.trace }
                    | .error pe =>
                      ⟨parseErrStr pe, false, st, script1, deeps,
                        execEvents ++ [Event.model_query]⟩
                else
                  ⟨error_msg, should_continue, st, script, deeps, execEvents⟩
              else
                let st := addContext st
                  ⟨env.now, "output",
                   if pyStrip stdout ≠ "" then stdout else "Command completed successfully"⟩
                if should_continue then
                  match send_result script with
                  | .error e =>
                    ⟨e, false, recordResult st false, script, deeps,
                      execEvents ++ [Event.model_query]⟩
                  | .ok (t, script1) =>
                    match parse_model_text env.decode t with
                    | .ok next_parsed =>
                      let r := execute_step env n st script1 deeps next_parsed
                      { r with trace := execEvents ++ Event.model_query :: r.trace }
                    | .error (.decodeError clean_text _) =>
                      ⟨pyStrip clean_text, false, st, script1, deeps,
                        execEvents ++ [Event.model_query]⟩
                    | .error (.extractError msg) =>
                      ⟨msg, false, st, script1, deeps,
                        execEvents ++ [Event.model_query]⟩
                else
                  let st := recordResult st true
                  ⟨if pyStrip stdout ≠ "" then stdout else "Command completed successfully",
                    should_continue, st, script, deeps, execEvents⟩

/-- Source: the inner coroutine process_response (agent.py lines 341-356),
with fuel for its self-recursion: parse the raw text; on success run
execute_step and, while it reports continue with a truthy result, feed that
result string back into process_response; a JSONDecodeError from json.loads
returns clean_text.strip(), and any other exception (in particular the
ValueError of _extract_json) returns str(e). -/
def process_response (env : AgentEnv) :
    Nat → AgentState → List String → List DeepOutcome → String → String
  | 0, _, _, _, _ => "recursion fuel exhausted"
  | n + 1, st, script, deeps, response_text =>
    match parse_model_text env.decode response_text with
    | .ok parsed =>
      let r := execute_step env (n + 1) st script deeps parsed
      if r.cont && r.result != "" then
        process_response env n r.st r.script r.deeps r.result
      else r.result
    | .error (.decodeError clean_text _) => pyStrip clean_text
    | .error (.extractError msg) => msg

/-! Concrete instances used to evaluate the model on explicit inputs. -/

/-- A json.loads oracle that rejects every string. -/
def decodeNone : String → Except String Envelope :=
  fun _ => .error "Expecting value: line 1 column 1 (char 0)"

/-- A dispatcher whose every command succeeds with empty output. -/
def runOk : String → String × String × Int := fun _ => ("", "", 0)

/-- Default environment: default configuration, rejecting decoder. -/
def env0 : AgentEnv := { decode := decodeNone, run_command := runOk }

/-- A well-formed envelope whose next_step key is present and null. -/
def envelope_null_next_step : Envelope :=
  { message := some "done", next_step := some none, «continue» := some false }

/-- A high-risk confirmable command step. -/
def next_step_high : NextStep :=
  { command := some "rm -rf /tmp/target", risk := some "high",
    requires_confirmation := some true }

/-- Envelope carrying the high-risk step. -/
def envelope_high_risk : Envelope :=
  { message := some "danger", next_step := some (some next_step_high),
    «continue» := some false }

/-- A deep-reasoning result dict of type "error". -/
def deep_error_result : Envelope := { type := some "error" }

/-- A deep-reasoning result dict of a benign type. -/
def deep_ok_result : Envelope := { type := some "analysis" }

/-- A low-risk command step without confirmation. -/
def next_step_ok : NextStep :=
  { command := some "ls", risk := some "low", requires_confirmation := some false }

/-- Envelope that runs the command and asks to continue. -/
def envelope_cmd_continue : Envelope :=
  { message := some "running", next_step := some (some next_step_ok),
    «continue» := some true }

/-- A terminal message-only envelope. -/
def envelope_finished : Envelope := { message := some "finished" }

/-- json.loads oracle for the continuation scenario. -/
def decode_c7 : String → Except String Envelope :=
  fun s => if s = "\x7bnext\x7d" then .ok envelope_finished
           else .error "Expecting value: line 1 column 1 (char 0)"

/-- Dispatcher for the continuation scenario: ls succeeds, all else fails. -/
def run_c7 : String → String × String × Int :=
  fun c => if c = "ls" then ("files", "", 0) else ("", "boom", 1)

/-- Environment for the continuation scenario. -/
def env_c7 : AgentEnv := { decode := decode_c7, run_command := run_c7 }

/-- First envelope of the repeated-escalation scenario: explicitly requests
deep reasoning. -/
def envelope_p0 : Envelope :=
  { message := some "p0", requires_deep_reasoning := some true }

/-- Second envelope of that scenario: again requests deep reasoning. -/
def envelope_p1 : Envelope :=
  { message := some "p1", requires_deep_reasoning := some true }

/-- Final benign envelope of that scenario. -/
def envelope_p2 : Envelope := { message := some "p2" }

/-- json.loads oracle for the repeated-escalation scenario. -/
def decode_c8 : String → Except String Envelope :=
  fun s => if s = "\x7bp1\x7d" then .ok envelope_p1
           else if s = "\x7bp2\x7d" then .ok envelope_p2
           else .error "Expecting value: line 1 column 1 (char 0)"

/-- Environment for the repeated-escalation scenario. -/
def env_c8 : AgentEnv := { decode := decode_c8, run_command := runOk }

/-! Helper lemmas shared by several claims. -/

/-- The finally block of the perspective loop restores the sampling
configuration saved before the override, whatever the outcome. -/
theorem perspective_step_fst (gc : GenerationConfig) (name : String)
    (pcfg : PerspectiveCfg) (o : PerspectiveOutcome) :
    (perspective_step gc name pcfg o).1 = gc := by
  cases gc
  rfl

/-- The perspective loop leaves the sampling configuration unchanged. -/
theorem deep_analyze_loop_fst (outcomes : Nat → PerspectiveOutcome) :
    ∀ (ps : List (String × PerspectiveCfg)) (i : Nat) (gc : GenerationConfig)
      (acc : List PerspectiveResult),
      (deep_analyze_loop outcomes ps i gc acc).1 = gc := by
  intro ps
  induction ps with
  | nil => intro i gc acc; rfl
  | cons hd rest ih =>
    intro i gc acc
    obtain ⟨name, pcfg⟩ := hd
    simp only [deep_analyze_loop]
    rw [ih]
    exact perspective_step_fst gc name pcfg (outcomes i)

/-- A failed perspective contributes no result. -/
theorem perspective_step_snd_of_fail (gc : GenerationConfig) (name : String)
    (pcfg : PerspectiveCfg) (o : PerspectiveOutcome)
    (h : ∀ pj, o ≠ PerspectiveOutcome.succeeds pj) :
    (perspective_step gc name pcfg o).2 = none := by
  cases o with
  | callRaises => rfl
  | parseFails => rfl
  | succeeds pj => exact absurd rfl (h pj)

/-- When every perspective outcome fails the loop collects nothing and
preserves the configuration. -/
theorem deep_analyze_loop_all_fail (outcomes : Nat → PerspectiveOutcome)
    (hfail : ∀ i pj, outcomes i ≠ PerspectiveOutcome.succeeds pj) :
    ∀ (ps : List (String × PerspectiveCfg)) (i : Nat) (gc : GenerationConfig)
      (acc : List PerspectiveResult),
      deep_analyze_loop outcomes ps i gc acc = (gc, acc) := by
  intro ps
  induction ps with
  | nil => intro i gc acc; rfl
  | cons hd rest ih =>
    intro i gc acc
    obtain ⟨name, pcfg⟩ := hd
    simp only [deep_analyze_loop]
    rw [perspective_step_fst gc name pcfg (outcomes i),
        perspective_step_snd_of_fail gc name pcfg (outcomes i) (hfail i)]
    simpa using ih (i + 1) gc acc

/-- _extract_json fails only with its fixed ValueError message. -/
theorem _extract_json_error_msg (t msg : String) (h : _extract_json t = Except.error msg) :
    msg = "No valid JSON found in response" := by
  simp only [_extract_json] at h
  split at h
  · exact Except.noConfusion h
  · injection h with h1
    exact h1.symm

/-! Claim C9. -/

/-- C9: for every perspective processed by Deep Reasoning the client's
generation parameters (temperature, top_p, top_k) are restored to their
pre-override values on every exit path — success, parse failure, or an
exception raised during the perspective call — before any later call uses
the client: each perspective_step and the whole deep_analyze return the
sampling configuration they started from, for every outcome oracle. -/
theorem C9_sampling_config_restored :
    (∀ (gc : GenerationConfig) (name : String) (pcfg : PerspectiveCfg)
       (o : PerspectiveOutcome), (perspective_step gc name pcfg o).1 = gc)
    ∧ (∀ (decode : String → Except String Envelope) (gc : GenerationConfig)
         (ps : List (String × PerspectiveCfg)) (outcomes : Nat → PerspectiveOutcome)
         (synth : SynthOutcome), (deep_analyze decode gc ps outcomes synth).1 = gc) := by
  constructor
  · exact perspective_step_fst
  · intro decode gc ps outcomes synth
    by_cases h : (deep_analyze_loop outcomes ps 0 gc []).2.isEmpty <;>
      simp [deep_analyze, h, deep_analyze_loop_fst]

/-! Claim C3. -/

/-- C3: counterexample to the claimed degraded envelope.  With one
perspective whose model call raises, deep_analyze returns the envelope of
deep_reasoning.py lines 223-231, whose message is "Deep analysis encountered
errors but will continue with standard processing" — not the claimed
"deep analysis failed, continue with standard processing" — and whose
next_step is a non-null dict, not null. -/
theorem C3_counterexample :
    (deep_analyze decodeNone {} [("security", {})]
        (fun _ => PerspectiveOutcome.callRaises) (SynthOutcome.returnsText "x")).2.message
      = some "Deep analysis encountered errors but will continue with standard processing"
    ∧ (deep_analyze decodeNone {} [("security", {})]
        (fun _ => PerspectiveOutcome.callRaises) (SynthOutcome.returnsText "x")).2.message
      ≠ some "deep analysis failed, continue with standard processing"
    ∧ (deep_analyze decodeNone {} [("security", {})]
        (fun _ => PerspectiveOutcome.callRaises) (SynthOutcome.returnsText "x")).2.next_step
      ≠ some none
    ∧ (deep_analyze decodeNone {} [("security", {})]
        (fun _ => PerspectiveOutcome.callRaises) (SynthOutcome.returnsText "x")).2.next_step
      ≠ none := by
  refine ⟨rfl, by decide, by decide, by decide⟩

/-- C3 (amended): if every perspective fails, deep_analyze returns — without
raising, being a total function whose every loop iteration catches its
failure — the degraded envelope of deep_reasoning.py lines 223-231: type
"response", message "Deep analysis encountered errors but will continue with
standard processing", and a next_step dict {action: continue, risk: medium,
requires_confirmation: true} (not null); the sampling configuration is
returned intact. -/
theorem C3_all_perspectives_fail (decode : String → Except String Envelope)
    (gc : GenerationConfig) (ps : List (String × PerspectiveCfg))
    (outcomes : Nat → PerspectiveOutcome) (synth : SynthOutcome)
    (hfail : ∀ i pj, outcomes i ≠ PerspectiveOutcome.succeeds pj) :
    deep_analyze decode gc ps outcomes synth = (gc, deep_fallback_envelope) := by
  unfold deep_analyze
  rw [deep_analyze_loop_all_fail outcomes hfail ps 0 gc []]
  rfl

/-- C3 witness: the amended theorem applied to one all-failing run. -/
theorem C3_all_perspectives_fail_witness :
    deep_analyze decodeNone {} [("network", {})]
      (fun _ => PerspectiveOutcome.callRaises) (SynthOutcome.raises "e")
      = ({}, deep_fallback_envelope) :=
  C3_all_perspectives_fail decodeNone {} [("network", {})]
    (fun _ => PerspectiveOutcome.callRaises) (SynthOutcome.raises "e")
    (fun _ _ h => PerspectiveOutcome.noConfusion h)

/-! Claim C8. -/

/-- C8: counterexample to once-per-turn escalation.  An envelope explicitly
requesting deep reasoning is escalated; the deep-reasoning follow-up parses
to a different envelope that again requests deep reasoning, and the code
escalates a second time within the same turn: the trace records two
deep-reasoning invocations. -/
theorem C8_counterexample :
    (execute_step env_c8 9 {} ["\x7bp1\x7d", "\x7bp2\x7d"]
        [DeepOutcome.returns deep_ok_result, DeepOutcome.returns deep_ok_result]
        envelope_p0).trace.count Event.deep_reasoning_invoked = 2
    ∧ ¬ ((execute_step env_c8 9 {} ["\x7bp1\x7d", "\x7bp2\x7d"]
        [DeepOutcome.returns deep_ok_result, DeepOutcome.returns deep_ok_result]
        envelope_p0).trace.count Event.deep_reasoning_invoked ≤ 1)
    ∧ (execute_step env_c8 9 {} ["\x7bp1\x7d", "\x7bp2\x7d"]
        [DeepOutcome.returns deep_ok_result, DeepOutcome.returns deep_ok_result]
        envelope_p0).result = "p2" := by
  refine ⟨rfl, by decide, rfl⟩

/-- C8 (amended): escalation is not bounded to once per turn; the only
damping is the duplicate-action guard of agent.py lines 184-187: re-entering
execute_step with an envelope equal to the one just processed returns
"Action already completed." immediately, with no further escalation, model
query or command; a deep-reasoning result that parses to a distinct envelope
which again satisfies the policy escalates again (see the counterexample). -/
theorem C8_duplicate_action_guard (env : AgentEnv) (n : Nat) (st : AgentState)
    (script : List String) (deeps : List DeepOutcome) (E : Envelope)
    (h : st._last_action = some E) :
    execute_step env (n + 1) st script deeps E =
      ⟨"Action already completed.", false, st, script, deeps, []⟩ := by
  simp only [execute_step]
  rw [if_pos h]

/-- C8 witness: the duplicate-action guard applied to a concrete state. -/
theorem C8_duplicate_action_guard_witness :
    execute_step env_c8 1 { _last_action := some envelope_p1 } [] [] envelope_p1
      = ⟨"Action already completed.", false,
         { _last_action := some envelope_p1 }, [], [], []⟩ :=
  C8_duplicate_action_guard env_c8 0 { _last_action := some envelope_p1 } [] []
    envelope_p1 rfl

/-! Claim C1. -/

/-- C1: counterexample.  For non-JSON prose containing no brace at all the
parse step returns str(ValueError) — the fixed text "No valid JSON found in
response" — and not the raw cleaned text, which here is the prose itself. -/
theorem C1_counterexample :
    process_response env0 1 {} [] [] "It is done." = "No valid JSON found in response"
    ∧ pyStrip (stripCodeFences "It is done.") = "It is done."
    ∧ ("No valid JSON found in response" : String) ≠ "It is done." := by
  refine ⟨rfl, rfl, by decide⟩

/-- C1 (amended): the parse step never raises to its caller — the model of
process_response is a total function — and on strict-decode failure
(JSONDecodeError from json.loads) the cleaned, stripped text is returned as
the final answer; but when the text contains no brace pair at all,
_extract_json's ValueError is caught by the generic handler and the fixed
string "No valid JSON found in response" is returned instead of the cleaned
text. -/
theorem C1_parse_step_never_raises (env : AgentEnv) (n : Nat) (st : AgentState)
    (script : List String) (deeps : List DeepOutcome) (t : String) :
    (∀ j msg, _extract_json (stripCodeFences t) = Except.ok j →
        env.decode j = Except.error msg →
        process_response env (n + 1) st script deeps t = pyStrip (stripCodeFences t))
    ∧ (∀ msg, _extract_json (stripCodeFences t) = Except.error msg →
        process_response env (n + 1) st script deeps t = msg
        ∧ msg = "No valid JSON found in response") := by
  constructor
  · intro j msg h1 h2
    simp only [process_response, parse_model_text, h1, h2]
  · intro msg h1
    refine ⟨?_, _extract_json_error_msg _ _ h1⟩
    simp only [process_response, parse_model_text, h1]

/-- C1 witness: the amended theorem applied to concrete prose. -/
theorem C1_parse_step_never_raises_witness :
    process_response env0 1 {} [] [] "plain text answer"
      = "No valid JSON found in response" := by
  have h := (C1_parse_step_never_raises env0 0 {} [] [] "plain text answer").2
      "No valid JSON found in response" rfl
  exact h.1

/-! Claim C2. -/

/-- C2: counterexample.  For a well-formed envelope whose next_step key is
present and null, should_activate evaluates
situation_data.get("next_step", dict()).get("risk", "low") on the stored
None and raises AttributeError; execute_step's handler records a failure and
returns str(e) — not the envelope's message — so the branch does not return
the message verbatim and even bumps the failure counter. -/
theorem C2_counterexample :
    (execute_step env0 5 {} [] [] envelope_null_next_step).result = attrErrNoneGet
    ∧ (execute_step env0 5 {} [] [] envelope_null_next_step).result
        ≠ pyOrStr envelope_null_next_step.message envelope_null_next_step.analysis
    ∧ (execute_step env0 5 {} [] [] envelope_null_next_step).st.consecutive_failures = 1 := by
  refine ⟨rfl, by decide, rfl⟩

/-- C2 (amended): for every envelope whose activation check evaluates to
false without error (with the default triggers this requires the next_step
key to be absent rather than null; a null next_step instead yields an
AttributeError message), execute_step terminates the branch in one step with
no model query, no deep reasoning and no command — empty trace, scripts
untouched, counter unchanged — returning (message or analysis or "",
continue); and the surrounding loop returns that text verbatim provided
continue is false (with continue=true the loop re-parses the text as if it
were a fresh model response instead of returning it). -/
theorem C2_next_step_absent (env : AgentEnv) (n : Nat) (st : AgentState)
    (script : List String) (deeps : List DeepOutcome) (E : Envelope)
    (hlast : ¬ st._last_action = some E)
    (hrdr : E.requires_deep_reasoning.getD false = false)
    (hact : should_activate env.dr_cfg st.consecutive_failures E = Except.ok false)
    (hns : E.next_step = none ∨ E.next_step = some none) :
    execute_step env (n + 1) st script deeps E =
      ⟨pyOrStr E.message E.analysis, E.«continue».getD false,
       { st with _last_action := some E }, script, deeps, []⟩
    ∧ (∀ t, parse_model_text env.decode t = Except.ok E →
        E.«continue».getD false = false →
        process_response env (n + 1) st script deeps t = pyOrStr E.message E.analysis) := by
  have h1 : execute_step env (n + 1) st script deeps E =
      ⟨pyOrStr E.message E.analysis, E.«continue».getD false,
       { st with _last_action := some E }, script, deeps, []⟩ := by
    rcases hns with h | h <;>
      simp only [execute_step, if_neg hlast, hrdr, Bool.false_eq_true, if_false, hact, h]
  refine ⟨h1, ?_⟩
  intro t hp hcont
  simp only [process_response, hp, h1, hcont, Bool.false_and, Bool.false_eq_true, if_false]

/-- A terminal envelope with no next_step key at all. -/
def envelope_absent : Envelope := { message := some "all done", «continue» := some false }

/-- json.loads oracle recognising the terminal envelope. -/
def decode_w2 : String → Except String Envelope :=
  fun s => if s = "\x7bdone\x7d" then .ok envelope_absent
           else .error "Expecting value: line 1 column 1 (char 0)"

/-- Environment for the terminal-envelope witness. -/
def env_w2 : AgentEnv := { decode := decode_w2, run_command := runOk }

/-- C2 witness: the amended theorem applied to a concrete terminal turn. -/
theorem C2_next_step_absent_witness :
    execute_step env_w2 1 {} [] [] envelope_absent =
      ⟨"all done", false, { _last_action := some envelope_absent }, [], [], []⟩
    ∧ process_response env_w2 1 {} [] [] "\x7bdone\x7d" = "all done" := by
  have h := C2_next_step_absent env_w2 0 {} [] [] envelope_absent
    (by decide) rfl rfl (Or.inl rfl)
  exact ⟨h.1.trans rfl, (h.2 "\x7bdone\x7d" rfl rfl).trans rfl⟩

/-! Claim C4. -/

/-- C4: counterexample.  Under the default configuration the high-risk
activation trigger fires first: an envelope whose next_step has a non-empty
command, requires_confirmation=true and risk=high (threshold medium, so all
three claimed gate conditions hold) is routed into deep reasoning; when the
deep analysis comes back typed "error" the code re-enters execute_step with
the same envelope, the duplicate-action guard answers "Action already
completed.", and the confirmation gate is never invoked. -/
theorem C4_counterexample :
    strTruthy next_step_high.command = true
    ∧ next_step_high.requires_confirmation.getD false = true
    ∧ _needs_confirmation env0.agent_cfg (pyLower (next_step_high.risk.getD "medium")) = true
    ∧ Event.confirmation_requested ∉
        (execute_step { env0 with confirm := false } 5 {} []
          [DeepOutcome.returns deep_error_result] envelope_high_risk).trace
    ∧ (execute_step { env0 with confirm := false } 5 {} []
          [DeepOutcome.returns deep_error_result] envelope_high_risk).result
        = "Action already completed." := by
  refine ⟨rfl, rfl, rfl, by decide, rfl⟩

/-- C4 (amended): in a pass whose activation check is false (for example
with the high-risk trigger disabled — under default triggers a high-risk
next_step escalates to deep reasoning before the gate), the confirmation
gate is invoked exactly when the command is non-empty, requires_confirmation
is truthy and _needs_confirmation holds for the action's risk; when all
three hold and the operator declines, the pass returns "Operation canceled
by user." with continue=false and dispatches no command; and with the master
confirmation switch on and threshold "medium", risk "high" exceeds the
threshold numerically. -/
theorem C4_confirmation_gate (env : AgentEnv) (n : Nat) (st : AgentState)
    (script : List String) (deeps : List DeepOutcome) (E : Envelope) (ns : NextStep)
    (hlast : ¬ st._last_action = some E)
    (hrdr : E.requires_deep_reasoning.getD false = false)
    (hact : should_activate env.dr_cfg st.consecutive_failures E = Except.ok false)
    (hns : E.next_step = some (some ns))
    (hcont : E.«continue».getD false = false) :
    ((Event.confirmation_requested ∈ (execute_step env (n + 1) st script deeps E).trace) ↔
      (strTruthy ns.command = true ∧ ns.requires_confirmation.getD false = true ∧
       _needs_confirmation env.agent_cfg (pyLower (ns.risk.getD "medium")) = true))
    ∧ (strTruthy ns.command = true → ns.requires_confirmation.getD false = true →
       _needs_confirmation env.agent_cfg (pyLower (ns.risk.getD "medium")) = true →
       env.confirm = false →
       (execute_step env (n + 1) st script deeps E).result = "Operation canceled by user."
       ∧ (execute_step env (n + 1) st script deeps E).cont = false
       ∧ (∀ c, Event.command_executed c ∉ (execute_step env (n + 1) st script deeps E).trace))
    ∧ (env.agent_cfg.require_confirmation = true →
       env.agent_cfg.risk_threshold = "medium" →
       _needs_confirmation env.agent_cfg "high" = true) := by
  refine ⟨?_, ?_, ?_⟩
  · simp only [execute_step, if_neg hlast, hrdr, Bool.false_eq_true, if_false, hact, hns, hcont]
    by_cases hc : strTruthy ns.command = true
    · simp only [hc, Bool.not_true, Bool.false_eq_true, if_false]
      by_cases hq : ns.requires_confirmation.getD false = true
      · by_cases hn2 : _needs_confirmation env.agent_cfg (pyLower (ns.risk.getD "medium")) = true
        · simp only [hq, hn2, Bool.and_self, Bool.true_and, if_true]
          cases hcf : env.confirm
          · simp [hcf]
          · simp only [hcf, Bool.not_true, Bool.and_false, Bool.false_eq_true, if_false]
            split <;> simp [hc, hq, hn2]
        · simp only [Bool.not_eq_true] at hn2
          simp only [hq, hn2, Bool.and_false, Bool.false_and, Bool.false_eq_true, if_false]
          split <;> simp [hn2]
      · simp only [Bool.not_eq_true] at hq
        simp only [hq, Bool.false_and, Bool.false_eq_true, if_false]
        split <;> simp [hq]
    · simp only [Bool.not_eq_true] at hc
      simp only [hc, Bool.not_false, if_true]
      simp [hc]
  · intro hc hq hn2 hcf
    simp only [execute_step, if_neg hlast, hrdr, Bool.false_eq_true, if_false, hact, hns,
      hcont, hc, Bool.not_true, hq, hn2, Bool.and_self, Bool.true_and, hcf, Bool.not_false,
      Bool.and_true, if_true]
    simp
  · intro hreq hthr
    simp only [_needs_confirmation, hreq, hthr]
    decide

/-- Environment for the gate witness: high-risk trigger disabled so the
activation check is false, operator declines. -/
def env_w4 : AgentEnv :=
  { decode := decodeNone, run_command := runOk, confirm := false,
    dr_cfg := { activation_triggers := { high_risk_commands := false } } }

/-- C4 witness: the amended theorem applied to the risk=high /
threshold=medium / decline scenario with the high-risk trigger disabled. -/
theorem C4_confirmation_gate_witness :
    (execute_step env_w4 1 {} [] [] envelope_high_risk).result
      = "Operation canceled by user."
    ∧ (execute_step env_w4 1 {} [] [] envelope_high_risk).cont = false
    ∧ Event.confirmation_requested ∈ (execute_step env_w4 1 {} [] [] envelope_high_risk).trace := by
  have h := C4_confirmation_gate env_w4 0 {} [] [] envelope_high_risk next_step_high
    (by decide) rfl rfl rfl rfl
  have h2 := h.2.1 rfl rfl rfl rfl
  exact ⟨h2.1, h2.2.1, (h.1).2 ⟨rfl, rfl, rfl⟩⟩

/-! Claim C7. -/

/-- C7: counterexample.  A command exits with code 0 but the envelope's
continue flag is true, so execute_step recurses into the continuation before
ever reaching record_result(success=True) at agent.py line 333: the
consecutive-failure counter, 1 before the turn, is still 1 afterwards even
though a command executed successfully. -/
theorem C7_counterexample :
    (run_c7 "ls").2.2 = 0
    ∧ Event.command_executed "ls" ∈
        (execute_step env_c7 5 { consecutive_failures := 1 } ["\x7bnext\x7d"] []
          envelope_cmd_continue).trace
    ∧ (execute_step env_c7 5 { consecutive_failures := 1 } ["\x7bnext\x7d"] []
        envelope_cmd_continue).st.consecutive_failures = 1
    ∧ (execute_step env_c7 5 { consecutive_failures := 1 } ["\x7bnext\x7d"] []
        envelope_cmd_continue).st.consecutive_failures ≠ 0
    ∧ (execute_step env_c7 5 { consecutive_failures := 1 } ["\x7bnext\x7d"] []
        envelope_cmd_continue).result = "finished" := by
  refine ⟨rfl, by decide, rfl, by decide, rfl⟩

/-- C7 (amended): record_result itself resets the counter to 0 on success
and increments it on failure, and in the control loop the counter is
incremented after every failed command and reset after a successful command
only when the turn does not continue (continue=false; on success with
continue=true the reset at agent.py line 333 is skipped by the continuation
return paths); with the counter at 3 and the threshold at 2,
should_activate fires without any explicit request. -/
theorem C7_failure_counter :
    (∀ n : Nat, record_result n true = 0 ∧ record_result n false = n + 1)
    ∧ (∀ (env : AgentEnv) (n : Nat) (st : AgentState) (script : List String)
         (deeps : List DeepOutcome) (E : Envelope) (ns : NextStep),
        ¬ st._last_action = some E →
        E.requires_deep_reasoning.getD false = false →
        should_activate env.dr_cfg st.consecutive_failures E = Except.ok false →
        E.next_step = some (some ns) →
        strTruthy ns.command = true →
        ns.requires_confirmation.getD false = false →
        E.«continue».getD false = false →
        ((env.run_command (ns.command.getD "")).2.2 ≠ 0 →
          (execute_step env (n + 1) st script deeps E).st.consecutive_failures
            = st.consecutive_failures + 1)
        ∧ ((env.run_command (ns.command.getD "")).2.2 = 0 →
          (execute_step env (n + 1) st script deeps E).st.consecutive_failures = 0))
    ∧ (∀ (cfg : DRConfig) (E : Envelope),
        cfg.debug_mode = false →
        E.requires_deep_reasoning.getD false = false →
        cfg.activation_triggers.consecutive_failures = 2 →
        should_activate cfg 3 E = Except.ok true) := by
  refine ⟨fun n => ⟨rfl, rfl⟩, ?_, ?_⟩
  · intro env n st script deeps E ns hlast hrdr hact hns hcmd hgate hcont
    simp only [execute_step, if_neg hlast, hrdr, Bool.false_eq_true, if_false, hact, hns,
      hcont, hcmd, Bool.not_true, hgate, Bool.false_and, if_false]
    constructor
    · intro hrc
      rw [if_pos hrc]
      simp [recordResult, record_result, addContext]
    · intro hrc0
      rw [if_neg (not_not_intro hrc0)]
      simp [recordResult, record_result, addContext]
  · intro cfg E hdbg hrdr htrig
    simp only [should_activate, hdbg, hrdr, htrig, Bool.false_eq_true, if_false]
    norm_num

/-- A failing command step. -/
def next_step_bad : NextStep :=
  { command := some "bad", risk := some "low", requires_confirmation := some false }

/-- Envelope running the failing command and stopping. -/
def envelope_cmd_fail : Envelope :=
  { message := some "x", next_step := some (some next_step_bad), «continue» := some false }

/-- Envelope running the succeeding command and stopping. -/
def envelope_cmd_stop : Envelope :=
  { message := some "y", next_step := some (some next_step_ok), «continue» := some false }

/-- C7 witness: the amended theorem applied to a failed and a successful
non-continuing command and to the 3-failures activation scenario. -/
theorem C7_failure_counter_witness :
    record_result 5 true = 0
    ∧ (execute_step env_c7 1 { consecutive_failures := 1 } [] []
        envelope_cmd_fail).st.consecutive_failures = 2
    ∧ (execute_step env_c7 1 { consecutive_failures := 1 } [] []
        envelope_cmd_stop).st.consecutive_failures = 0
    ∧ should_activate {} 3 envelope_cmd_stop = Except.ok true := by
  refine ⟨(C7_failure_counter.1 5).1, ?_, ?_, ?_⟩
  · exact (C7_failure_counter.2.1 env_c7 0 { consecutive_failures := 1 } [] []
      envelope_cmd_fail next_step_bad (by decide) rfl rfl rfl rfl rfl rfl).1 (by decide)
  · exact (C7_failure_counter.2.1 env_c7 0 { consecutive_failures := 1 } [] []
      envelope_cmd_stop next_step_ok (by decide) rfl rfl rfl rfl rfl rfl).2 rfl
  · exact C7_failure_counter.2.2 {} envelope_cmd_stop rfl rfl rfl

/-! Claim C10. -/

/-- A risk label outside the table makes _needs_confirmation false for every
configuration: the unknown label maps to weight 0 and 0 never strictly
exceeds the threshold weight. -/
theorem _needs_confirmation_unknown (cfg : AgentConfig) (r : String)
    (h : risk_levels (pyLower r) = none) : _needs_confirmation cfg r = false := by
  unfold _needs_confirmation
  cases hb : cfg.require_confirmation
  · simp
  · simp [h]

/-- C10: an absent risk field defaults to the string "medium" first; any
risk string whose lowercasing is outside {none, low, medium, high} maps to
weight 0, so _needs_confirmation is false for every configuration and
threshold, and in a non-escalating pass the confirmation gate is never
invoked for such a next_step even with requires_confirmation true. -/
theorem C10_unrecognized_risk :
    (∀ ns : NextStep, ns.risk = none → ns.risk.getD "medium" = "medium")
    ∧ (∀ (cfg : AgentConfig) (r : String), risk_levels (pyLower r) = none →
        (risk_levels (pyLower r)).getD 0 = 0 ∧ _needs_confirmation cfg r = false)
    ∧ (∀ (env : AgentEnv) (n : Nat) (st : AgentState) (script : List String)
         (deeps : List DeepOutcome) (E : Envelope) (ns : NextStep) (r : String),
        ¬ st._last_action = some E →
        E.requires_deep_reasoning.getD false = false →
        should_activate env.dr_cfg st.consecutive_failures E = Except.ok false →
        E.next_step = some (some ns) →
        ns.risk = some r →
        risk_levels (pyLower (pyLower r)) = none →
        E.«continue».getD false = false →
        Event.confirmation_requested ∉ (execute_step env (n + 1) st script deeps E).trace) := by
  refine ⟨?_, ?_, ?_⟩
  · intro ns h
    rw [h]
    rfl
  · intro cfg r h
    exact ⟨by rw [h]; rfl, _needs_confirmation_unknown cfg r h⟩
  · intro env n st script deeps E ns r hlast hrdr hact hns hrisk hru hcont
    have hnc : _needs_confirmation env.agent_cfg (pyLower (ns.risk.getD "medium")) = false := by
      rw [hrisk]
      exact _needs_confirmation_unknown env.agent_cfg (pyLower r) hru
    simp only [execute_step, if_neg hlast, hrdr, Bool.false_eq_true, if_false, hact, hns, hcont]
    by_cases hc : strTruthy ns.command = true
    · simp only [hc, Bool.not_true, Bool.false_eq_true, if_false, hnc, Bool.and_false,
        Bool.false_and, if_false]
      split <;> simp
    · simp only [Bool.not_eq_true] at hc
      simp only [hc, Bool.not_false, if_true]
      simp

/-- A next_step with an unrecognized risk label and confirmation demanded. -/
def next_step_unknown_risk : NextStep :=
  { command := some "do-it", risk := some "CRITICAL", requires_confirmation := some true }

/-- Envelope carrying the unrecognized-risk step. -/
def envelope_unknown_risk : Envelope :=
  { message := some "m", next_step := some (some next_step_unknown_risk),
    «continue» := some false }

/-- C10 witness: the theorem applied to a risk-free step, to the label
"critical" and to a full pass with risk "CRITICAL" and
requires_confirmation=true. -/
theorem C10_unrecognized_risk_witness :
    ({} : NextStep).risk.getD "medium" = "medium"
    ∧ (risk_levels (pyLower "critical")).getD 0 = 0
    ∧ _needs_confirmation {} "critical" = false
    ∧ Event.confirmation_requested ∉
        (execute_step env0 1 {} [] [] envelope_unknown_risk).trace := by
  have h2 := C10_unrecognized_risk.2.1 {} "critical" rfl
  refine ⟨C10_unrecognized_risk.1 {} rfl, h2.1, h2.2, ?_⟩
  exact C10_unrecognized_risk.2.2 env0 0 {} [] [] envelope_unknown_risk
    next_step_unknown_risk "CRITICAL" (by decide) rfl rfl rfl rfl rfl rfl

/-! Claim C6. -/

/-- One append keeps the history equal to the suffix of everything appended
that fits the cap, and preserves the cap. -/
theorem add_to_context_history (m : ContextManager) (e : CtxEntry)
    (h : m.context_history.length ≤ m.max_context_length) :
    (add_to_context m e).context_history =
      (m.context_history ++ [e]).drop ((m.context_history.length + 1) - m.max_context_length)
    ∧ (add_to_context m e).max_context_length = m.max_context_length := by
  simp only [add_to_context]
  by_cases h2 : (m.context_history ++ [e]).length > m.max_context_length
  · rw [if_pos h2]
    refine ⟨?_, rfl⟩
    have hd : m.context_history.length + 1 - m.max_context_length = 1 := by
      simp only [List.length_append, List.length_cons, List.length_nil] at h2
      omega
    rw [hd]
  · rw [if_neg h2]
    refine ⟨?_, rfl⟩
    simp only [List.length_append, List.length_cons, List.length_nil, not_lt] at h2
    have h0 : m.context_history.length + 1 - m.max_context_length = 0 := by omega
    rw [h0, List.drop_zero]

/-- Folding appends over the log keeps exactly the suffix that fits. -/
theorem foldl_add_to_context (es : List CtxEntry) :
    ∀ (m : ContextManager), m.context_history.length ≤ m.max_context_length →
      (es.foldl add_to_context m).context_history =
        (m.context_history ++ es).drop
          ((m.context_history.length + es.length) - m.max_context_length)
      ∧ (es.foldl add_to_context m).max_context_length = m.max_context_length := by
  induction es with
  | nil =>
    intro m h
    refine ⟨?_, rfl⟩
    simp [Nat.sub_eq_zero_of_le h]
  | cons e rest ih =>
    intro m h
    simp only [List.foldl_cons, List.length_cons]
    have hstep := add_to_context_history m e h
    have hlen2 : (add_to_context m e).context_history.length
        ≤ (add_to_context m e).max_context_length := by
      rw [hstep.1, hstep.2]
      simp only [List.length_drop, List.length_append, List.length_cons, List.length_nil]
      omega
    have hrec := ih (add_to_context m e) hlen2
    rw [hrec.1, hrec.2, hstep.1, hstep.2]
    refine ⟨?_, rfl⟩
    rw [show m.context_history ++ e :: rest = (m.context_history ++ [e]) ++ rest by simp]
    have hd1 : (m.context_history.length + 1) - m.max_context_length
        ≤ (m.context_history ++ [e]).length := by
      simp only [List.length_append, List.length_cons, List.length_nil]
      omega
    have hD : (m.context_history.length + (rest.length + 1)) - m.max_context_length
        = ((m.context_history.length + 1) - m.max_context_length)
          + ((((m.context_history ++ [e]).drop
                ((m.context_history.length + 1) - m.max_context_length)).length
              + rest.length) - m.max_context_length) := by
      simp only [List.length_drop, List.length_append, List.length_cons, List.length_nil]
      omega
    rw [hD, ← List.drop_drop, List.drop_append_of_le_length hd1]

/-- C6: the context log holds at most max_length entries at all times; after
appending max_length + k entries into an empty log, the history is exactly
the most recent max_length entries, oldest first, render() is the
newline-joined block of their "[timestamp] type: content" lines — a pure
function of the state by construction — and the default capacity is 10. -/
theorem C6_context_log (maxLen k : Nat) (es : List CtxEntry)
    (h : es.length = maxLen + k) :
    (es.foldl add_to_context
        { context_history := [], max_context_length := maxLen }).context_history
      = es.drop k
    ∧ (es.foldl add_to_context
        { context_history := [], max_context_length := maxLen }).context_history.length
      = maxLen
    ∧ get_current_context (es.foldl add_to_context
        { context_history := [], max_context_length := maxLen })
      = String.intercalate "\n" ((es.drop k).map ctxLine)
    ∧ (∀ es2 : List CtxEntry,
        (es2.foldl add_to_context
          { context_history := [], max_context_length := maxLen }).context_history.length
        ≤ maxLen)
    ∧ ({} : ContextManager).max_context_length = 10 := by
  have hfold := foldl_add_to_context es
    { context_history := [], max_context_length := maxLen } (by simp)
  have h1 : (es.foldl add_to_context
      { context_history := [], max_context_length := maxLen }).context_history
      = es.drop k := by
    rw [hfold.1]
    simp only [List.nil_append, List.length_nil, Nat.zero_add]
    congr 1
    omega
  refine ⟨h1, ?_, ?_, ?_, rfl⟩
  · rw [h1, List.length_drop, h]
    omega
  · rw [get_current_context, h1]
  · intro es2
    have hfold2 := foldl_add_to_context es2
      { context_history := [], max_context_length := maxLen } (by simp)
    rw [hfold2.1]
    simp only [List.nil_append, List.length_drop, List.length_nil, Nat.zero_add]
    omega

/-- Five concrete context entries. -/
def ctxEntries5 : List CtxEntry :=
  [⟨"t1", "output", "a"⟩, ⟨"t2", "error", "b"⟩, ⟨"t3", "output", "c"⟩,
   ⟨"t4", "output", "d"⟩, ⟨"t5", "error", "e"⟩]

/-- C6 witness: the theorem applied to capacity 3 and five appends. -/
theorem C6_context_log_witness :
    (ctxEntries5.foldl add_to_context
        { context_history := [], max_context_length := 3 }).context_history
      = ctxEntries5.drop 2
    ∧ get_current_context (ctxEntries5.foldl add_to_context
        { context_history := [], max_context_length := 3 })
      = String.intercalate "\n" ((ctxEntries5.drop 2).map ctxLine) := by
  have h := C6_context_log 3 2 ctxEntries5 rfl
  exact ⟨h.1, h.2.2.1⟩

/-! Claim C5. -/

/-- The minimum-delay loop exits no earlier than last + delay. -/
theorem delayTarget_ge_last (s : RateLimiterState) (t0 : ℚ)
    (l : ℚ) (hl : s.last_request_time = some l) :
    l + s.delay_between_requests ≤ delayTarget s t0 := by
  have hd : delayTarget s t0
      = if t0 - l < s.delay_between_requests then l + s.delay_between_requests else t0 := by
    unfold delayTarget
    rw [hl]
  rw [hd]
  split_ifs with h
  · exact le_refl _
  · linarith [not_lt.mp h]

/-- The window loop only moves time forward. -/
theorem grantTime_ge (s : RateLimiterState) (t0 : ℚ) :
    delayTarget s t0 ≤ grantTime s t0 := by
  simp only [grantTime]
  split
  · cases pruneOld s.request_times (delayTarget s t0) with
    | nil => exact le_refl _
    | cons oldest tail =>
      show delayTarget s t0 ≤
        if oldest + 60 - delayTarget s t0 > 0 then oldest + 60 else delayTarget s t0
      split_ifs with h
      · linarith
      · exact le_refl _
  · exact le_refl _

/-- When the pruned window is still full, the grant waits until the oldest
recorded timestamp is 60 seconds old. -/
theorem grantTime_full (s : RateLimiterState) (t0 : ℚ) (oldest : ℚ) (rest : List ℚ)
    (hpr : pruneOld s.request_times (delayTarget s t0) = oldest :: rest)
    (hfull : s.requests_per_minute ≤ (oldest :: rest).length) :
    oldest + 60 ≤ grantTime s t0 := by
  simp only [grantTime]
  rw [hpr, if_pos hfull]
  show oldest + 60 ≤
    if oldest + 60 - delayTarget s t0 > 0 then oldest + 60 else delayTarget s t0
  split_ifs with h
  · exact le_refl _
  · linarith [not_lt.mp h]

/-- C5: the idealized acquire returns only after (a) at least
delay_between_requests seconds have passed since the previously granted
request, and (b) fewer than requests_per_minute previously recorded
timestamps lie strictly within the trailing 60-second window; when the
pruned window is full the grant waits until the oldest timestamp ages out
(so the (N+1)-th back-to-back call waits), and the request is always
recorded, never dropped. -/
theorem C5_rate_limiter (s : RateLimiterState) (t0 : ℚ)
    (hN : 1 ≤ s.requests_per_minute)
    (hlen : s.request_times.length ≤ s.requests_per_minute)
    (hdelay : 0 ≤ s.delay_between_requests) :
    (∀ l, s.last_request_time = some l →
      l + s.delay_between_requests ≤ (wait_if_needed_async s t0).1)
    ∧ (s.request_times.filter
        (fun ts => decide ((wait_if_needed_async s t0).1 - ts < 60))).length
        < s.requests_per_minute
    ∧ (∀ oldest rest,
        pruneOld s.request_times (delayTarget s t0) = oldest :: rest →
        s.requests_per_minute ≤ (oldest :: rest).length →
        oldest + 60 ≤ (wait_if_needed_async s t0).1)
    ∧ (wait_if_needed_async s t0).1 ∈ (wait_if_needed_async s t0).2.request_times
    ∧ (wait_if_needed_async s t0).2.last_request_time = some (wait_if_needed_async s t0).1 := by
  have hfst : (wait_if_needed_async s t0).1 = grantTime s t0 := rfl
  refine ⟨?_, ?_, ?_, ?_, rfl⟩
  · intro l hl
    rw [hfst]
    exact le_trans (delayTarget_ge_last s t0 l hl) (grantTime_ge s t0)
  · rw [hfst]
    have ht12 : delayTarget s t0 ≤ grantTime s t0 := grantTime_ge s t0
    have hdecomp :
        s.request_times.takeWhile (fun ts => decide (delayTarget s t0 - ts > 60))
          ++ s.request_times.dropWhile (fun ts => decide (delayTarget s t0 - ts > 60))
          = s.request_times :=
      List.takeWhile_append_dropWhile (fun ts => decide (delayTarget s t0 - ts > 60))
        s.request_times
    have hfilter :
        s.request_times.filter (fun ts => decide (grantTime s t0 - ts < 60))
          = (s.request_times.takeWhile
              (fun ts => decide (delayTarget s t0 - ts > 60))).filter
              (fun ts => decide (grantTime s t0 - ts < 60))
            ++ (s.request_times.dropWhile
              (fun ts => decide (delayTarget s t0 - ts > 60))).filter
              (fun ts => decide (grantTime s t0 - ts < 60)) := by
      conv_lhs => rw [← hdecomp]
      rw [List.filter_append]
    have htw : (s.request_times.takeWhile
        (fun ts => decide (delayTarget s t0 - ts > 60))).filter
        (fun ts => decide (grantTime s t0 - ts < 60)) = [] := by
      rw [List.filter_eq_nil_iff]
      intro a ha
      have hqa := List.mem_takeWhile_imp ha
      simp only [decide_eq_true_eq] at hqa
      simp only [decide_eq_true_eq, not_lt]
      linarith
    rw [hfilter, htw, List.nil_append]
    have hdw : pruneOld s.request_times (delayTarget s t0)
        = s.request_times.dropWhile (fun ts => decide (delayTarget s t0 - ts > 60)) := rfl
    have hplen : (s.request_times.dropWhile
        (fun ts => decide (delayTarget s t0 - ts > 60))).length
        ≤ s.request_times.length :=
      (List.dropWhile_sublist _).length_le
    by_cases hfull : s.requests_per_minute
        ≤ (s.request_times.dropWhile (fun ts => decide (delayTarget s t0 - ts > 60))).length
    · obtain ⟨oldest, rest, hor⟩ : ∃ o r,
          s.request_times.dropWhile (fun ts => decide (delayTarget s t0 - ts > 60))
            = o :: r := by
        cases hdd : s.request_times.dropWhile
            (fun ts => decide (delayTarget s t0 - ts > 60)) with
        | nil => rw [hdd] at hfull; simp at hfull; omega
        | cons o r => exact ⟨o, r, rfl⟩
      have hog : oldest + 60 ≤ grantTime s t0 :=
        grantTime_full s t0 oldest rest (hdw.trans hor) (hor ▸ hfull)
      rw [hor, List.filter_cons_of_neg (by simp only [decide_eq_true_eq, not_lt]; linarith)]
      have hr1 : (rest.filter (fun ts => decide (grantTime s t0 - ts < 60))).length
          ≤ rest.length := List.length_filter_le _ _
      have hr2 : (oldest :: rest).length ≤ s.request_times.length := by
        rw [← hor]; exact hplen
      simp only [List.length_cons] at hr2
      omega
    · have := List.length_filter_le (fun ts => decide (grantTime s t0 - ts < 60))
        (s.request_times.dropWhile (fun ts => decide (delayTarget s t0 - ts > 60)))
      omega
  · intro oldest rest hpr hfull
    rw [hfst]
    exact grantTime_full s t0 oldest rest hpr hfull
  · show grantTime s t0 ∈
      ((pruneOld s.request_times (delayTarget s t0) ++ [grantTime s t0]).drop
        ((pruneOld s.request_times (delayTarget s t0) ++ [grantTime s t0]).length
          - s.requests_per_minute))
    have hk : (pruneOld s.request_times (delayTarget s t0) ++ [grantTime s t0]).length
        - s.requests_per_minute
        ≤ (pruneOld s.request_times (delayTarget s t0)).length := by
      simp only [List.length_append, List.length_cons, List.length_nil]
      omega
    rw [List.drop_append_of_le_length hk]
    exact List.mem_append_right _ (List.mem_singleton_self _)

/-- A full limiter window: two requests per minute already granted at time
0, minimum delay 0. -/
def rl_full : RateLimiterState :=
  { requests_per_minute := 2, delay_between_requests := 0,
    request_times := [0, 0], last_request_time := some 0 }

/-- C5 witness: the theorem applied to the (N+1)-th back-to-back call on a
full window — the call is granted only at t = 60, when the oldest recorded
timestamp ages out, and is itself recorded. -/
theorem C5_rate_limiter_witness :
    (0 : ℚ) + rl_full.delay_between_requests ≤ (wait_if_needed_async rl_full 0).1
    ∧ (rl_full.request_times.filter
        (fun ts => decide ((wait_if_needed_async rl_full 0).1 - ts < 60))).length
        < rl_full.requests_per_minute
    ∧ (0 : ℚ) + 60 ≤ (wait_if_needed_async rl_full 0).1
    ∧ (wait_if_needed_async rl_full 0).1 ∈ (wait_if_needed_async rl_full 0).2.request_times
    ∧ (wait_if_needed_async rl_full 0).2.last_request_time
        = some (wait_if_needed_async rl_full 0).1 := by
  have hpr : pruneOld rl_full.request_times (delayTarget rl_full 0) = [0, 0] := by
    have ht1 : delayTarget rl_full 0 = 0 := by
      simp [delayTarget, rl_full]
    rw [ht1]
    simp [pruneOld, List.dropWhile, (by norm_num : ¬ ((60 : ℚ) < 0))]
  have h := C5_rate_limiter rl_full 0 (by norm_num [rl_full]) (by norm_num [rl_full])
    (by norm_num [rl_full])
  exact ⟨h.1 0 rfl, h.2.1, h.2.2.1 0 [0] hpr (by norm_num [rl_full]), h.2.2.2.1, h.2.2.2.2⟩

end Constructo
